import Mathlib

/-!
Verification of the Fortran binding type catalogue
(`ompi/mpi/bindings/ompi_bindings/fortran_type.py`).

The Python module defines a base class `FortranType` holding per-parameter
state (`name`, `fn_name`, `bigcount`, `count_param`, `gen_f90`,
`used_counters`), a registry `TYPES` mapping kind tags to descriptor
classes (populated by the `@FortranType.add(tag)` decorator, with Python
dict overwrite semantics), and about ninety concrete descriptor classes.

The embedding below mirrors that code:
* `FortranType` is the instance state; `FortranType.init` is `__init__`.
* `KindCls` has one constructor per Python class object.  Python reuses
  several class names (`VBufferType`, `WBufferType`, `CountTypeInOut`,
  `IntOutType`, `RankType`, `LogicalArrayType`, `CountArray`,
  `ErrhandlerOutType`, `CommErrhandlerFnType` each name two distinct
  classes); the second class object gets a `B` suffix here.
* Each contract operation (`declare`, `declare_cbinding_fortran`,
  `declare_tmp`, `argument`, `use`, `includeF`, `pre_c_call`, `post`,
  `c_parameter`, `interface_predeclare`) is a function `KindCls →
  FortranType → _`, written by resolving Python method inheritance per
  class.  None of those method bodies assigns to `self`, so they are pure;
  `tmp_counter` is the one mutating method and returns the updated state.
* `registrations` lists the `@FortranType.add` calls in source order and
  `TYPES` folds them with dict-assignment semantics (`dictInsert`).
-/

namespace OmpiBindings

/-- Rendering of a Python `Optional[str]` by an f-string: `None` prints as
the four characters `None`, a string prints as itself.  Used where the
source interpolates `self.count_param` directly, e.g.
`f'LOGICAL, INTENT(IN) :: {self.name}({self.count_param})'`. -/
def pyOptStr : Option String → String
  | none => "None"
  | some s => s

/-- The source idiom `'*' if self.count_param == None else self.count_param`
used by the array kinds that default to an assumed-size declaration. -/
def sizeOrStar : Option String → String
  | none => "*"
  | some s => s

/-- Python `str(n)` for a natural number: decimal digits, `0` prints as
`"0"`.  (Used for `f'{self.used_counters}'` in `tmp_counter`.) -/
def decimalStr (n : Nat) : String :=
  if _h : n < 10 then String.mk [Nat.digitChar n]
  else decimalStr (n / 10) ++ String.mk [Nat.digitChar (n % 10)]
  decreasing_by exact Nat.div_lt_self (by omega) (by omega)

/-- Decimal parser, a left inverse of `decimalStr` used to prove that
distinct counters yield distinct names. -/
def decimalVal (s : String) : Nat :=
  s.data.foldl (fun a c => 10 * a + (c.toNat - 48)) 0

/-- Per-parameter descriptor state: the attributes set by
`FortranType.__init__`. -/
structure FortranType where
  name : String
  fn_name : String
  bigcount : Bool
  count_param : Option String
  gen_f90 : Bool
  used_counters : Nat
deriving DecidableEq

/-- `FortranType.__init__`: `used_counters` always starts at `0`. -/
def FortranType.init (name fn_name : String) (bigcount : Bool)
    (count_param : Option String) (gen_f90 : Bool) : FortranType :=
  { name := name, fn_name := fn_name, bigcount := bigcount,
    count_param := count_param, gen_f90 := gen_f90, used_counters := 0 }

/-- `tmp_name`: `f'c_{self.name}'`. -/
def FortranType.tmp_name (s : FortranType) : String := "c_" ++ s.name

/-- `tmp_name2`: `f'c_{self.name}2'`. -/
def FortranType.tmp_name2 (s : FortranType) : String := "c_" ++ s.name ++ "2"

/-- `tmp_counter`: returns `f'{self.name}_i_{self.used_counters}'` and
increments `used_counters` — the only state mutation in the module. -/
def FortranType.tmp_counter (s : FortranType) : String × FortranType :=
  (s.name ++ "_i_" ++ decimalStr s.used_counters,
   { s with used_counters := s.used_counters + 1 })

/-- Modelled from the spec: `util.ext_api_func_name` lives in `util.py`,
which is not part of this source; the spec says the API display name is
the upper-cased function name with a big-count suffix decoration when
`bigcount` is set. -/
def ext_api_func_name (fn_name : String) (bigcount : Bool) : String :=
  if bigcount then fn_name ++ "_c" else fn_name

/-- `fn_api_name` property: `util.ext_api_func_name(...).upper()`. -/
def FortranType.fn_api_name (s : FortranType) : String :=
  (ext_api_func_name s.fn_name s.bigcount).toUpper

/-- One constructor per Python descriptor class object, in source order.
Where Python reuses a class name for a second class, the later one is
suffixed with `B` (see the module comment). -/
inductive KindCls where
  | BufferType          -- BUFFER
  | BufferAsyncType     -- BUFFER_ASYNC
  | BufferOutType       -- BUFFER_OUT
  | BufferAsyncOutType  -- BUFFER_ASYNC_OUT
  | VBufferType         -- VBUFFER
  | VBufferTypeB        -- VBUFFER_OUT (Python also names it VBufferType)
  | WBufferType         -- WBUFFER
  | WBufferTypeB        -- WBUFFER_OUT (Python also names it WBufferType)
  | CptrType            -- C_PTR_OUT
  | CountType           -- COUNT
  | CountTypeInOut      -- COUNT_INOUT
  | CountTypeInOutB     -- COUNT_OUT (Python also names it CountTypeInOut)
  | PartitionedCountType -- PARTITIONED_COUNT
  | DatatypeType        -- DATATYPE
  | DatatypeTypeOut     -- DATATYPE_OUT
  | DatatypeTypeInOut   -- DATATYPE_INOUT
  | DatatypeArrayType   -- DATATYPE_ARRAY
  | IntType             -- INT
  | IntOutType          -- INT_OUT
  | IntOutTypeB         -- INT_INOUT (Python also names it IntOutType)
  | RankType            -- RANK (pass-through of IntType)
  | RankTypeB           -- RANK_OUT (pass-through of IntOutType)
  | TagType             -- TAG (pass-through of IntType)
  | IndexOutType        -- INDEX_OUT
  | LogicalType         -- LOGICAL
  | LogicalArrayType    -- LOGICAL_ARRAY
  | LogicalOutType      -- LOGICAL_OUT
  | LogicalArrayTypeB   -- LOGICAL_ARRAY_OUT (Python also names it LogicalArrayType)
  | CommType            -- COMM
  | CommOutType         -- COMM_OUT
  | CommInOutType       -- COMM_INOUT
  | GroupType           -- GROUP
  | GroupOutType        -- GROUP_OUT
  | GroupInOutType      -- GROUP_INOUT
  | SessionType         -- SESSION
  | SessionOutType      -- SESSION_OUT
  | SessionInOutType    -- SESSION_INOUT
  | StatusType          -- STATUS
  | StatusOutType       -- STATUS_OUT
  | StatusInOutType     -- STATUS_INOUT
  | RequestType         -- REQUEST
  | RequestTypeOut      -- REQUEST_OUT
  | RequestTypeInOut    -- REQUEST_INOUT
  | RequestArrayType    -- REQUEST_ARRAY
  | RequestArrayTypeInOut -- REQUEST_ARRAY_INOUT
  | StatusArrayType     -- STATUS_ARRAY
  | IntArray            -- INT_ARRAY
  | IntArrayOut         -- INT_ARRAY_OUT
  | IntArrayInOut       -- INT_ARRAY_INOUT
  | CountArray          -- COUNT_ARRAY
  | CountArrayB         -- AINT_COUNT_ARRAY (Python also names it CountArray)
  | Aint                -- AINT
  | AintOut             -- AINT_OUT
  | AintCountTypeIn     -- AINT_COUNT
  | AintCountTypeInOut  -- AINT_COUNT_INOUT
  | AintCountTypeOut    -- AINT_COUNT_OUT
  | AintArrayType       -- AINT_ARRAY
  | Disp                -- DISP
  | DispOut             -- DISP_OUT
  | DispArray           -- DISP_ARRAY
  | Op                  -- OP
  | OpInOut             -- OP_INOUT
  | Win                 -- WIN
  | WinOut              -- WIN_OUT
  | WinInOut            -- WIN_INOUT
  | File                -- FILE
  | FileOut             -- FILE_OUT
  | Info                -- INFO
  | InfoOut             -- INFO_OUT
  | InfoInOut           -- INFO_INOUT
  | Offset              -- OFFSET
  | OffsetOut           -- OFFSET_OUT
  | CharArray           -- CHAR_ARRAY
  | CharArrayOut        -- CHAR_ARRAY_OUT
  | MessageOut          -- MESSAGE_OUT
  | MessageInOut        -- MESSAGE_INOUT
  | ErrhandlerType      -- ERRHANDLER
  | ErrhandlerOutType   -- ERRHANDLER_OUT
  | ErrhandlerOutTypeB  -- ERRHANDLER_INOUT (Python also names it ErrhandlerOutType)
  | CommErrhandlerFnType  -- COMM_ERRHANDLER_FN, first definition (line 1347)
  | CommCopyAttrFnType  -- COMM_COPY_ATTR_FN
  | TypeCopyAttrFnType  -- TYPE_COPY_ATTR_FN
  | WinCopyAttrFnType   -- WIN_COPY_ATTR_FN
  | CommDeleteAttrFnType -- COMM_DELETE_ATTR_FN
  | TypeDeleteAttrFnType -- TYPE_DELETE_ATTR_FN
  | WinDeleteAttrFnType -- WIN_DELETE_ATTR_FN
  | CommErrhandlerFnTypeB -- COMM_ERRHANDLER_FN, second definition (line 1494)
  | FileErrhandlerFnType  -- FILE_ERRHANDLER_FN
  | SessionErrhandlerFnType -- SESSION_ERRHANDLER_FN
  | WinErrhandlerFnType -- WIN_ERRHANDLER_FN
  | DataRepConversionFnType -- DATAREP_CONVERSION_FN
  | DataRepExtentFnType -- DATAREP_EXTENT_FN
deriving DecidableEq

/-- Registrations chunk 0 (the full list in one literal elaborates too slowly). -/
def regChunk0 : List (String × KindCls) :=
  [("BUFFER", KindCls.BufferType),
   ("BUFFER_ASYNC", KindCls.BufferAsyncType),
   ("BUFFER_OUT", KindCls.BufferOutType),
   ("BUFFER_ASYNC_OUT", KindCls.BufferAsyncOutType),
   ("VBUFFER", KindCls.VBufferType),
   ("VBUFFER_OUT", KindCls.VBufferTypeB),
   ("WBUFFER", KindCls.WBufferType),
   ("WBUFFER_OUT", KindCls.WBufferTypeB),
   ("C_PTR_OUT", KindCls.CptrType),
   ("COUNT", KindCls.CountType),
   ("COUNT_INOUT", KindCls.CountTypeInOut),
   ("COUNT_OUT", KindCls.CountTypeInOutB),
   ("PARTITIONED_COUNT", KindCls.PartitionedCountType),
   ("DATATYPE", KindCls.DatatypeType),
   ("DATATYPE_OUT", KindCls.DatatypeTypeOut),
   ("DATATYPE_INOUT", KindCls.DatatypeTypeInOut)]

/-- Registrations chunk 1 (the full list in one literal elaborates too slowly). -/
def regChunk1 : List (String × KindCls) :=
  [("DATATYPE_ARRAY", KindCls.DatatypeArrayType),
   ("INT", KindCls.IntType),
   ("INT_OUT", KindCls.IntOutType),
   ("INT_INOUT", KindCls.IntOutTypeB),
   ("RANK", KindCls.RankType),
   ("RANK_OUT", KindCls.RankTypeB),
   ("TAG", KindCls.TagType),
   ("INDEX_OUT", KindCls.IndexOutType),
   ("LOGICAL", KindCls.LogicalType),
   ("LOGICAL_ARRAY", KindCls.LogicalArrayType),
   ("LOGICAL_OUT", KindCls.LogicalOutType),
   ("LOGICAL_ARRAY_OUT", KindCls.LogicalArrayTypeB),
   ("COMM", KindCls.CommType),
   ("COMM_OUT", KindCls.CommOutType),
   ("COMM_INOUT", KindCls.CommInOutType),
   ("GROUP", KindCls.GroupType)]

/-- Registrations chunk 2 (the full list in one literal elaborates too slowly). -/
def regChunk2 : List (String × KindCls) :=
  [("GROUP_OUT", KindCls.GroupOutType),
   ("GROUP_INOUT", KindCls.GroupInOutType),
   ("SESSION", KindCls.SessionType),
   ("SESSION_OUT", KindCls.SessionOutType),
   ("SESSION_INOUT", KindCls.SessionInOutType),
   ("STATUS", KindCls.StatusType),
   ("STATUS_OUT", KindCls.StatusOutType),
   ("STATUS_INOUT", KindCls.StatusInOutType),
   ("REQUEST", KindCls.RequestType),
   ("REQUEST_OUT", KindCls.RequestTypeOut),
   ("REQUEST_INOUT", KindCls.RequestTypeInOut),
   ("REQUEST_ARRAY", KindCls.RequestArrayType),
   ("REQUEST_ARRAY_INOUT", KindCls.RequestArrayTypeInOut),
   ("STATUS_ARRAY", KindCls.StatusArrayType),
   ("INT_ARRAY", KindCls.IntArray),
   ("INT_ARRAY_OUT", KindCls.IntArrayOut)]

/-- Registrations chunk 3 (the full list in one literal elaborates too slowly). -/
def regChunk3 : List (String × KindCls) :=
  [("INT_ARRAY_INOUT", KindCls.IntArrayInOut),
   ("COUNT_ARRAY", KindCls.CountArray),
   ("AINT_COUNT_ARRAY", KindCls.CountArrayB),
   ("AINT", KindCls.Aint),
   ("AINT_OUT", KindCls.AintOut),
   ("AINT_COUNT", KindCls.AintCountTypeIn),
   ("AINT_COUNT_INOUT", KindCls.AintCountTypeInOut),
   ("AINT_COUNT_OUT", KindCls.AintCountTypeOut),
   ("AINT_ARRAY", KindCls.AintArrayType),
   ("DISP", KindCls.Disp),
   ("DISP_OUT", KindCls.DispOut),
   ("DISP_ARRAY", KindCls.DispArray),
   ("OP", KindCls.Op),
   ("OP_INOUT", KindCls.OpInOut),
   ("WIN", KindCls.Win),
   ("WIN_OUT", KindCls.WinOut)]

/-- Registrations chunk 4 (the full list in one literal elaborates too slowly). -/
def regChunk4 : List (String × KindCls) :=
  [("WIN_INOUT", KindCls.WinInOut),
   ("FILE", KindCls.File),
   ("FILE_OUT", KindCls.FileOut),
   ("INFO", KindCls.Info),
   ("INFO_OUT", KindCls.InfoOut),
   ("INFO_INOUT", KindCls.InfoInOut),
   ("OFFSET", KindCls.Offset),
   ("OFFSET_OUT", KindCls.OffsetOut),
   ("CHAR_ARRAY", KindCls.CharArray),
   ("CHAR_ARRAY_OUT", KindCls.CharArrayOut),
   ("MESSAGE_OUT", KindCls.MessageOut),
   ("MESSAGE_INOUT", KindCls.MessageInOut),
   ("ERRHANDLER", KindCls.ErrhandlerType),
   ("ERRHANDLER_OUT", KindCls.ErrhandlerOutType),
   ("ERRHANDLER_INOUT", KindCls.ErrhandlerOutTypeB),
   ("COMM_ERRHANDLER_FN", KindCls.CommErrhandlerFnType)]

/-- Registrations chunk 5 (the full list in one literal elaborates too slowly). -/
def regChunk5 : List (String × KindCls) :=
  [("COMM_COPY_ATTR_FN", KindCls.CommCopyAttrFnType),
   ("TYPE_COPY_ATTR_FN", KindCls.TypeCopyAttrFnType),
   ("WIN_COPY_ATTR_FN", KindCls.WinCopyAttrFnType),
   ("COMM_DELETE_ATTR_FN", KindCls.CommDeleteAttrFnType),
   ("TYPE_DELETE_ATTR_FN", KindCls.TypeDeleteAttrFnType),
   ("WIN_DELETE_ATTR_FN", KindCls.WinDeleteAttrFnType),
   ("COMM_ERRHANDLER_FN", KindCls.CommErrhandlerFnTypeB),
   ("FILE_ERRHANDLER_FN", KindCls.FileErrhandlerFnType),
   ("SESSION_ERRHANDLER_FN", KindCls.SessionErrhandlerFnType),
   ("WIN_ERRHANDLER_FN", KindCls.WinErrhandlerFnType),
   ("DATAREP_CONVERSION_FN", KindCls.DataRepConversionFnType),
   ("DATAREP_EXTENT_FN", KindCls.DataRepExtentFnType)]

/-- The `@FortranType.add(tag)` calls in source order, tag by class. -/
def registrations : List (String × KindCls) :=
  regChunk0 ++ regChunk1 ++ regChunk2 ++ regChunk3 ++ regChunk4 ++ regChunk5

/-- Python dict assignment `TYPES[tag] = cls`: replace the value in place
if the key is present, append otherwise. -/
def dictInsert : List (String × KindCls) → String → KindCls → List (String × KindCls)
  | [], k, v => [(k, v)]
  | (k', v') :: rest, k, v =>
      if k' == k then (k, v) :: rest else (k', v') :: dictInsert rest k v

/-- The class registry `FortranType.TYPES` after all decorators have run. -/
def TYPES : List (String × KindCls) :=
  registrations.foldl (fun m p => dictInsert m p.1 p.2) []

/-- The error raised by `cls.TYPES[type_name]` for an absent key. -/
inductive LookupErr where
  | unknownKind (tag : String)
deriving DecidableEq

/-- `FortranType.get(type_name)`: dict lookup, `KeyError` when absent. -/
def getCls (tag : String) : Except LookupErr KindCls :=
  match TYPES.find? (fun p => p.1 == tag) with
  | some p => .ok p.2
  | none => .error (.unknownKind tag)

/-- Stateful view of `get`: the dict lookup reads the table and returns it
unchanged (no mutation in `__getitem__`). -/
def getClsS (table : List (String × KindCls)) (tag : String) :
    Except LookupErr KindCls × List (String × KindCls) :=
  (match table.find? (fun p => p.1 == tag) with
   | some p => .ok p.2
   | none => .error (.unknownKind tag), table)

/-- `FortranType.construct(type_name, **kwargs)`: look up the class, then
build the instance via `__init__`.  Fails before constructing anything
when the tag is unknown. -/
def construct (tag : String) (name fn_name : String) (bigcount : Bool)
    (count_param : Option String) (gen_f90 : Bool) :
    Except LookupErr (KindCls × FortranType) :=
  match getCls tag with
  | .ok c => .ok (c, FortranType.init name fn_name bigcount count_param gen_f90)
  | .error e => .error e

/-- `interface_predeclare`: base default is the empty string; `BufferType`
and its subclasses override it with the IGNORE_TKR directive.  (`VBUFFER`
and `WBUFFER` classes derive from `FortranType` directly, so they keep the
empty default.) -/
def interface_predeclare (k : KindCls) (s : FortranType) : String :=
  match k with
  | .BufferType | .BufferAsyncType | .BufferOutType | .BufferAsyncOutType =>
      "!OMPI_F08_IGNORE_TKR_PREDECL " ++ s.name
  | _ => ""

/-- `declare()`, resolved per class.  Abstract in the base class, so every
class defines or inherits one.  Conditions mirror the source:
`if self.gen_f90 == False` and `if self.bigcount`. -/
def declare (k : KindCls) (s : FortranType) : String :=
  match k with
  | .BufferType => "OMPI_F08_IGNORE_TKR_TYPE, INTENT(IN) :: " ++ s.name
  | .BufferAsyncType => "OMPI_F08_IGNORE_TKR_TYPE, INTENT(IN) OMPI_ASYNCHRONOUS :: " ++ s.name
  | .BufferOutType => "OMPI_F08_IGNORE_TKR_TYPE :: " ++ s.name
  | .BufferAsyncOutType => "OMPI_F08_IGNORE_TKR_TYPE OMPI_ASYNCHRONOUS :: " ++ s.name
  | .VBufferType | .WBufferType => "OMPI_F08_IGNORE_TKR_TYPE, INTENT(IN) :: " ++ s.name
  | .VBufferTypeB | .WBufferTypeB => "OMPI_F08_IGNORE_TKR_TYPE :: " ++ s.name
  | .CptrType => "TYPE(C_PTR), INTENT(OUT) :: " ++ s.name
  | .CountType =>
      if s.bigcount then "INTEGER(KIND=MPI_COUNT_KIND), INTENT(IN) :: " ++ s.name
      else "INTEGER, INTENT(IN) :: " ++ s.name
  | .CountTypeInOut =>
      if s.bigcount then "INTEGER(KIND=MPI_COUNT_KIND), INTENT(INOUT) :: " ++ s.name
      else "INTEGER, INTENT(INOUT) :: " ++ s.name
  | .CountTypeInOutB =>
      if s.bigcount then "INTEGER(KIND=MPI_COUNT_KIND), INTENT(OUT) :: " ++ s.name
      else "INTEGER, INTENT(OUT) :: " ++ s.name
  | .PartitionedCountType => "INTEGER(KIND=MPI_COUNT_KIND), INTENT(IN) :: " ++ s.name
  | .DatatypeType =>
      if s.gen_f90 = false then "TYPE(MPI_Datatype), INTENT(IN) :: " ++ s.name
      else "INTEGER, INTENT(IN) :: " ++ s.name
  | .DatatypeTypeOut =>
      if s.gen_f90 = false then "TYPE(MPI_Datatype), INTENT(OUT) :: " ++ s.name
      else "INTEGER, INTENT(OUT) :: " ++ s.name
  | .DatatypeTypeInOut =>
      if s.gen_f90 = false then "TYPE(MPI_Datatype), INTENT(INOUT) :: " ++ s.name
      else "INTEGER, INTENT(INOUT) :: " ++ s.name
  | .DatatypeArrayType =>
      if s.gen_f90 = false then "TYPE(MPI_Datatype), INTENT(IN) :: " ++ s.name ++ "(*)"
      else "INTEGER, INTENT(IN) :: " ++ s.name ++ "(*)"
  | .IntType | .RankType | .TagType => "INTEGER, INTENT(IN) :: " ++ s.name
  | .IntOutType | .RankTypeB | .IndexOutType => "INTEGER, INTENT(OUT) :: " ++ s.name
  | .IntOutTypeB => "INTEGER, INTENT(INOUT) :: " ++ s.name
  | .LogicalType => "LOGICAL, INTENT(IN) :: " ++ s.name
  | .LogicalArrayType =>
      "LOGICAL, INTENT(IN) :: " ++ s.name ++ "(" ++ pyOptStr s.count_param ++ ")"
  | .LogicalOutType => "LOGICAL, INTENT(OUT) :: " ++ s.name
  | .LogicalArrayTypeB =>
      "LOGICAL, INTENT(OUT) :: " ++ s.name ++ "(" ++ pyOptStr s.count_param ++ ")"
  | .CommType =>
      if s.gen_f90 = false then "TYPE(MPI_Comm), INTENT(IN) :: " ++ s.name
      else "INTEGER, INTENT(IN) :: " ++ s.name
  | .CommOutType =>
      if s.gen_f90 = false then "TYPE(MPI_Comm), INTENT(OUT) :: " ++ s.name
      else "INTEGER, INTENT(OUT) :: " ++ s.name
  | .CommInOutType =>
      if s.gen_f90 = false then "TYPE(MPI_Comm), INTENT(INOUT) :: " ++ s.name
      else "INTEGER, INTENT(INOUT) :: " ++ s.name
  | .GroupType =>
      if s.gen_f90 = false then "TYPE(MPI_Group), INTENT(IN) :: " ++ s.name
      else "INTEGER, INTENT(IN) :: " ++ s.name
  | .GroupOutType =>
      if s.gen_f90 = false then "TYPE(MPI_Group), INTENT(OUT) :: " ++ s.name
      else "INTEGER, INTENT(OUT) :: " ++ s.name
  | .GroupInOutType =>
      if s.gen_f90 = false then "TYPE(MPI_Group), INTENT(INOUT) :: " ++ s.name
      else "INTEGER, INTENT(INOUT) :: " ++ s.name
  | .SessionType =>
      if s.gen_f90 = false then "TYPE(MPI_Session), INTENT(IN) :: " ++ s.name
      else "INTEGER, INTENT(IN) :: " ++ s.name
  | .SessionOutType =>
      if s.gen_f90 = false then "TYPE(MPI_Session), INTENT(OUT) :: " ++ s.name
      else "INTEGER, INTENT(OUT) :: " ++ s.name
  | .SessionInOutType =>
      if s.gen_f90 = false then "TYPE(MPI_Session), INTENT(INOUT) :: " ++ s.name
      else "INTEGER, INTENT(INOUT) :: " ++ s.name
  | .StatusType =>
      if s.gen_f90 = false then "TYPE(MPI_Status) :: " ++ s.name
      else "INTEGER :: " ++ s.name ++ "(MPI_STATUS_SIZE)"
  | .StatusOutType =>
      if s.gen_f90 = false then "TYPE(MPI_Status), INTENT(OUT) :: " ++ s.name
      else "INTEGER, INTENT(OUT) :: " ++ s.name ++ "(MPI_STATUS_SIZE)"
  | .StatusInOutType =>
      if s.gen_f90 = false then "TYPE(MPI_Status), INTENT(INOUT) :: " ++ s.name
      else "INTEGER, INTENT(INOUT) :: " ++ s.name ++ "(MPI_STATUS_SIZE)"
  | .RequestType =>
      if s.gen_f90 = false then "TYPE(MPI_Request), INTENT(IN) :: " ++ s.name
      else "INTEGER, INTENT(IN) :: " ++ s.name
  | .RequestTypeOut =>
      if s.gen_f90 = false then "TYPE(MPI_Request), INTENT(OUT) :: " ++ s.name
      else "INTEGER, INTENT(OUT) :: " ++ s.name
  | .RequestTypeInOut =>
      -- source line 699: no gen_f90 branch in this override
      "TYPE(MPI_Request), INTENT(INOUT) :: " ++ s.name
  | .RequestArrayType =>
      if s.gen_f90 = false then
        "TYPE(MPI_Request), INTENT(IN) :: " ++ s.name ++ "(" ++ pyOptStr s.count_param ++ ")"
      else "INTEGER, INTENT(IN) :: " ++ s.name ++ "(*)"
  | .RequestArrayTypeInOut =>
      -- source lines 737-741: both branches yield the derived type
      if s.gen_f90 = false then
        "TYPE(MPI_Request), INTENT(INOUT) :: " ++ s.name ++ "(" ++ pyOptStr s.count_param ++ ")"
      else "TYPE(MPI_Request), INTENT(INOUT) :: " ++ s.name ++ "(*)"
  | .StatusArrayType =>
      if s.gen_f90 = false then "TYPE(MPI_Status), INTENT(OUT) :: " ++ s.name ++ "(*)"
      else "INTEGER, INTENT(OUT) :: " ++ s.name ++ "(MPI_STATUS_SIZE,*)"
  | .IntArray =>
      "INTEGER, INTENT(IN) :: " ++ s.name ++ "(" ++ sizeOrStar s.count_param ++ ")"
  | .IntArrayOut =>
      "INTEGER, INTENT(OUT) :: " ++ s.name ++ "(" ++ sizeOrStar s.count_param ++ ")"
  | .IntArrayInOut =>
      "INTEGER, INTENT(INOUT) :: " ++ s.name ++ "(" ++ sizeOrStar s.count_param ++ ")"
  | .CountArray =>
      "INTEGER" ++ (if s.bigcount then "(KIND=MPI_COUNT_KIND)" else "")
        ++ ", INTENT(IN) :: " ++ s.name ++ "(" ++ sizeOrStar s.count_param ++ ")"
  | .CountArrayB =>
      "INTEGER" ++ (if s.bigcount then "(KIND=MPI_COUNT_KIND)" else "(KIND=MPI_ADDRESS_KIND)")
        ++ ", INTENT(IN) :: " ++ s.name ++ "(" ++ sizeOrStar s.count_param ++ ")"
  | .Aint => "INTEGER(MPI_ADDRESS_KIND), INTENT(IN) :: " ++ s.name
  | .AintOut => "INTEGER(MPI_ADDRESS_KIND), INTENT(OUT) :: " ++ s.name
  | .AintCountTypeIn =>
      if s.bigcount then "INTEGER(KIND=MPI_COUNT_KIND), INTENT(IN) :: " ++ s.name
      else "INTEGER(KIND=MPI_ADDRESS_KIND), INTENT(IN) :: " ++ s.name
  | .AintCountTypeInOut =>
      if s.bigcount then "INTEGER(KIND=MPI_COUNT_KIND), INTENT(INOUT) :: " ++ s.name
      else "INTEGER(KIND=MPI_ADDRESS_KIND), INTENT(INOUT) :: " ++ s.name
  | .AintCountTypeOut =>
      if s.bigcount then "INTEGER(KIND=MPI_COUNT_KIND), INTENT(OUT) :: " ++ s.name
      else "INTEGER(KIND=MPI_ADDRESS_KIND), INTENT(OUT) :: " ++ s.name
  | .AintArrayType =>
      "INTEGER(KIND=MPI_ADDRESS_KIND), INTENT(IN) OMPI_ASYNCHRONOUS :: "
        ++ s.name ++ "(" ++ sizeOrStar s.count_param ++ ")"
  | .Disp =>
      "INTEGER" ++ (if s.bigcount then "(KIND=MPI_ADDRESS_KIND)" else "")
        ++ ", INTENT(IN) :: " ++ s.name
  | .DispOut =>
      "INTEGER" ++ (if s.bigcount then "(KIND=MPI_ADDRESS_KIND)" else "")
        ++ ", INTENT(OUT) :: " ++ s.name
  | .DispArray =>
      "INTEGER" ++ (if s.bigcount then "(KIND=MPI_ADDRESS_KIND)" else "")
        ++ ", INTENT(IN) :: " ++ s.name ++ "(" ++ sizeOrStar s.count_param ++ ")"
  | .Op =>
      if s.gen_f90 = false then "TYPE(MPI_Op), INTENT(IN) :: " ++ s.name
      else "INTEGER, INTENT(IN) :: " ++ s.name
  | .OpInOut =>
      if s.gen_f90 = false then "TYPE(MPI_Op), INTENT(INOUT) :: " ++ s.name
      else "INTEGER, INTENT(INOUT) :: " ++ s.name
  | .Win =>
      if s.gen_f90 = false then "TYPE(MPI_Win), INTENT(IN) :: " ++ s.name
      else "INTEGER, INTENT(IN) :: " ++ s.name
  | .WinOut =>
      if s.gen_f90 = false then "TYPE(MPI_Win), INTENT(OUT) :: " ++ s.name
      else "INTEGER, INTENT(OUT) :: " ++ s.name
  | .WinInOut =>
      if s.gen_f90 = false then "TYPE(MPI_Win), INTENT(INOUT) :: " ++ s.name
      else "INTEGER, INTENT(INOUT) :: " ++ s.name
  | .File =>
      if s.gen_f90 = false then "TYPE(MPI_File), INTENT(IN) :: " ++ s.name
      else "INTEGER, INTENT(IN) :: " ++ s.name
  | .FileOut =>
      if s.gen_f90 = false then "TYPE(MPI_File), INTENT(OUT) :: " ++ s.name
      else "INTEGER, INTENT(OUT) :: " ++ s.name
  | .Info =>
      if s.gen_f90 = false then "TYPE(MPI_Info), INTENT(IN) :: " ++ s.name
      else "INTEGER, INTENT(IN) :: " ++ s.name
  | .InfoOut =>
      if s.gen_f90 = false then "TYPE(MPI_Info), INTENT(OUT) :: " ++ s.name
      else "INTEGER, INTENT(OUT) :: " ++ s.name
  | .InfoInOut =>
      if s.gen_f90 = false then "TYPE(MPI_Info), INTENT(INOUT) :: " ++ s.name
      else "INTEGER, INTENT(INOUT) :: " ++ s.name
  | .Offset => "INTEGER(MPI_OFFSET_KIND), INTENT(IN) :: " ++ s.name
  | .OffsetOut => "INTEGER(MPI_OFFSET_KIND), INTENT(OUT) :: " ++ s.name
  | .CharArray => "CHARACTER(LEN=*), INTENT(IN) :: " ++ s.name
  | .CharArrayOut =>
      "CHARACTER(LEN=" ++ sizeOrStar s.count_param ++ "), INTENT(OUT) :: " ++ s.name
  | .MessageOut =>
      if s.gen_f90 = false then "TYPE(MPI_Message), INTENT(OUT) :: " ++ s.name
      else "INTEGER, INTENT(OUT) :: " ++ s.name
  | .MessageInOut =>
      if s.gen_f90 = false then "TYPE(MPI_Message), INTENT(INOUT) :: " ++ s.name
      else "INTEGER, INTENT(INOUT) :: " ++ s.name
  | .ErrhandlerType =>
      if s.gen_f90 = false then "TYPE(MPI_Errhandler), INTENT(IN) :: " ++ s.name
      else "INTEGER, INTENT(IN) :: " ++ s.name
  | .ErrhandlerOutType =>
      if s.gen_f90 = false then "TYPE(MPI_Errhandler), INTENT(OUT) :: " ++ s.name
      else "INTEGER, INTENT(OUT) :: " ++ s.name
  | .ErrhandlerOutTypeB =>
      if s.gen_f90 = false then "TYPE(MPI_Errhandler), INTENT(INOUT) :: " ++ s.name
      else "INTEGER, INTENT(INOUT) :: " ++ s.name
  | .CommErrhandlerFnType =>
      if s.gen_f90 = false then "PROCEDURE(MPI_Comm_copy_errhandler_function) :: " ++ s.name
      else "EXTERNAL " ++ s.name
  | .CommCopyAttrFnType =>
      if s.gen_f90 = false then "PROCEDURE(MPI_Comm_copy_attr_function) :: " ++ s.name
      else "EXTERNAL " ++ s.name
  | .TypeCopyAttrFnType =>
      if s.gen_f90 = false then "PROCEDURE(MPI_Type_copy_attr_function) :: " ++ s.name
      else "EXTERNAL " ++ s.name
  | .WinCopyAttrFnType =>
      if s.gen_f90 = false then "PROCEDURE(MPI_Win_copy_attr_function) :: " ++ s.name
      else "EXTERNAL " ++ s.name
  | .CommDeleteAttrFnType =>
      if s.gen_f90 = false then "PROCEDURE(MPI_Comm_delete_attr_function) :: " ++ s.name
      else "EXTERNAL " ++ s.name
  | .TypeDeleteAttrFnType =>
      if s.gen_f90 = false then "PROCEDURE(MPI_Type_delete_attr_function) :: " ++ s.name
      else "EXTERNAL " ++ s.name
  | .WinDeleteAttrFnType =>
      if s.gen_f90 = false then "PROCEDURE(MPI_Win_delete_attr_function) :: " ++ s.name
      else "EXTERNAL " ++ s.name
  | .CommErrhandlerFnTypeB =>
      if s.gen_f90 = false then "PROCEDURE(MPI_Comm_errhandler_function) :: " ++ s.name
      else "EXTERNAL " ++ s.name
  | .FileErrhandlerFnType =>
      if s.gen_f90 = false then "PROCEDURE(MPI_File_errhandler_function) :: " ++ s.name
      else "EXTERNAL " ++ s.name
  | .SessionErrhandlerFnType =>
      if s.gen_f90 = false then "PROCEDURE(MPI_Session_errhandler_function) :: " ++ s.name
      else "EXTERNAL " ++ s.name
  | .WinErrhandlerFnType =>
      if s.gen_f90 = false then "PROCEDURE(MPI_Win_errhandler_function) :: " ++ s.name
      else "EXTERNAL " ++ s.name
  | .DataRepConversionFnType =>
      if s.gen_f90 = false then "PROCEDURE(MPI_Datarep_conversion_function) :: " ++ s.name
      else "EXTERNAL " ++ s.name
  | .DataRepExtentFnType =>
      if s.gen_f90 = false then "PROCEDURE(MPI_Datarep_extent_function) :: " ++ s.name
      else "EXTERNAL " ++ s.name

/-- `declare_cbinding_fortran()`: classes with an override (directly or by
inheritance) are listed; everything else uses the base default, which
returns `self.declare()`. -/
def declare_cbinding_fortran (k : KindCls) (s : FortranType) : String :=
  match k with
  | .DatatypeType | .LogicalType | .CommType | .GroupType | .SessionType
  | .RequestType | .Op | .OpInOut | .Win | .ErrhandlerType | .CommErrhandlerFnType =>
      "INTEGER, INTENT(IN) :: " ++ s.name
  | .DatatypeTypeOut | .LogicalOutType | .CommOutType | .GroupOutType | .SessionOutType
  | .RequestTypeOut | .WinOut | .FileOut | .ErrhandlerOutType =>
      "INTEGER, INTENT(OUT) :: " ++ s.name
  | .DatatypeTypeInOut | .CommInOutType | .GroupInOutType | .SessionInOutType
  | .RequestTypeInOut | .WinInOut | .ErrhandlerOutTypeB =>
      "INTEGER, INTENT(INOUT) :: " ++ s.name
  | .LogicalArrayType =>
      "INTEGER, INTENT(IN) :: " ++ s.name ++ "(" ++ pyOptStr s.count_param ++ ")"
  | .LogicalArrayTypeB =>
      "INTEGER, INTENT(OUT) :: " ++ s.name ++ "(" ++ pyOptStr s.count_param ++ ")"
  | .RequestArrayType =>
      if s.gen_f90 = false then
        "INTEGER, INTENT(IN) :: " ++ s.name ++ "(" ++ pyOptStr s.count_param ++ ")"
      else "INTEGER, INTENT(IN) :: " ++ s.name ++ "(*)"
  | .RequestArrayTypeInOut =>
      if s.gen_f90 = false then
        "INTEGER, INTENT(INOUT) :: " ++ s.name ++ "(" ++ pyOptStr s.count_param ++ ")"
      else "INTEGER, INTENT(INOUT) :: " ++ s.name ++ "(*)"
  | .CharArray => "CHARACTER(KIND=C_CHAR), INTENT(IN) :: " ++ s.name ++ "(*)"
  | .CharArrayOut => "CHARACTER(KIND=C_CHAR), INTENT(OUT) :: " ++ s.name ++ "(*)"
  | .CommCopyAttrFnType | .TypeCopyAttrFnType | .WinCopyAttrFnType
  | .CommDeleteAttrFnType | .TypeDeleteAttrFnType | .WinDeleteAttrFnType
  | .CommErrhandlerFnTypeB | .FileErrhandlerFnType | .SessionErrhandlerFnType
  | .WinErrhandlerFnType | .DataRepConversionFnType | .DataRepExtentFnType =>
      "type(c_funptr) :: " ++ s.name
  | _ => declare k s

/-- `declare_tmp()`: base default is the empty string. -/
def declare_tmp (k : KindCls) (s : FortranType) : String :=
  match k with
  | .LogicalType | .LogicalOutType => "INTEGER :: " ++ s.tmp_name ++ " = 0"
  | .LogicalArrayType | .LogicalArrayTypeB =>
      "INTEGER :: " ++ s.tmp_name ++ "(" ++ pyOptStr s.count_param ++ ")"
  | .CommErrhandlerFnType
  | .CommDeleteAttrFnType | .TypeDeleteAttrFnType | .WinDeleteAttrFnType
  | .CommErrhandlerFnTypeB | .FileErrhandlerFnType | .SessionErrhandlerFnType
  | .WinErrhandlerFnType | .DataRepConversionFnType | .DataRepExtentFnType =>
      "type(c_funptr) :: " ++ s.tmp_name
  | .CommCopyAttrFnType | .TypeCopyAttrFnType | .WinCopyAttrFnType =>
      -- source line 1394 has no spaces around `::`
      "type(c_funptr)::" ++ s.tmp_name
  | _ => ""

/-- `argument()`: base default returns `self.name`. -/
def argument (k : KindCls) (s : FortranType) : String :=
  match k with
  | .DatatypeType | .DatatypeTypeOut | .DatatypeTypeInOut
  | .RequestType | .RequestTypeOut | .RequestTypeInOut
  | .Op | .OpInOut | .Win | .WinOut | .WinInOut
  | .ErrhandlerType | .ErrhandlerOutType | .ErrhandlerOutTypeB
  | .CommErrhandlerFnType =>
      if s.gen_f90 = false then s.name ++ "%MPI_VAL" else s.name
  | .CommType | .CommOutType | .CommInOutType
  | .GroupType | .GroupOutType | .GroupInOutType
  | .SessionType | .SessionOutType | .SessionInOutType =>
      -- these overrides have no gen_f90 branch in the source
      s.name ++ "%MPI_VAL"
  | .RequestArrayType | .RequestArrayTypeInOut =>
      if s.gen_f90 = false then s.name ++ "(:)%MPI_VAL" else s.name
  | .LogicalType | .LogicalArrayType | .LogicalOutType | .LogicalArrayTypeB
  | .CommCopyAttrFnType | .TypeCopyAttrFnType | .WinCopyAttrFnType
  | .CommDeleteAttrFnType | .TypeDeleteAttrFnType | .WinDeleteAttrFnType
  | .CommErrhandlerFnTypeB | .FileErrhandlerFnType | .SessionErrhandlerFnType
  | .WinErrhandlerFnType | .DataRepConversionFnType | .DataRepExtentFnType =>
      s.tmp_name
  | .CharArray => s.name ++ "//c_null_char"
  | _ => s.name

/-- `use()`: required
(module, symbol) imports; base default is the empty list. -/
def use (k : KindCls) (s : FortranType) : List (String × String) :=
  match k with
  | .CptrType => [("ISO_C_BINDING", "C_PTR")]
  | .CountType | .CountTypeInOut | .CountTypeInOutB | .PartitionedCountType =>
      if s.gen_f90 = false then [("mpi_f08_types", "MPI_COUNT_KIND")] else []
  | .DatatypeType | .DatatypeTypeOut | .DatatypeTypeInOut | .DatatypeArrayType =>
      if s.gen_f90 = false then [("mpi_f08_types", "MPI_Datatype")] else []
  | .CommType | .CommOutType | .CommInOutType =>
      if s.gen_f90 = false then [("mpi_f08_types", "MPI_Comm")] else []
  | .GroupType | .GroupOutType | .GroupInOutType =>
      if s.gen_f90 = false then [("mpi_f08_types", "MPI_Group")] else []
  | .SessionType | .SessionOutType | .SessionInOutType =>
      if s.gen_f90 = false then [("mpi_f08_types", "MPI_Session")] else []
  | .StatusType | .StatusOutType | .StatusInOutType | .StatusArrayType =>
      if s.gen_f90 = false then [("mpi_f08_types", "MPI_Status")] else []
  | .RequestType | .RequestTypeOut | .RequestTypeInOut
  | .RequestArrayType | .RequestArrayTypeInOut =>
      if s.gen_f90 = false then [("mpi_f08_types", "MPI_Request")] else []
  | .IntArray | .IntArrayOut | .IntArrayInOut =>
      if s.count_param == some "MPI_STATUS_SIZE" then
        [("mpi_f08_types", "MPI_STATUS_SIZE")]
      else []
  | .CountArray =>
      if s.bigcount then [("mpi_f08_types", "MPI_COUNT_KIND")] else []
  | .CountArrayB =>
      if s.bigcount then [("mpi_f08_types", "MPI_COUNT_KIND")]
      else [("mpi_f08_types", "MPI_ADDRESS_KIND")]
  | .Aint | .AintOut =>
      if s.gen_f90 = false then [("mpi_f08_types", "MPI_ADDRESS_KIND")] else []
  | .AintCountTypeIn =>
      if s.bigcount then [("mpi_f08_types", "MPI_COUNT_KIND")]
      else if s.gen_f90 = false then [("mpi_f08_types", "MPI_ADDRESS_KIND")] else []
  | .AintCountTypeInOut | .AintCountTypeOut =>
      if s.bigcount then [("mpi_f08_types", "MPI_COUNT_KIND")]
      else [("mpi_f08_types", "MPI_ADDRESS_KIND")]
  | .AintArrayType => [("mpi_f08_types", "MPI_ADDRESS_KIND")]
  | .Disp | .DispOut | .DispArray =>
      if s.bigcount then [("mpi_f08_types", "MPI_ADDRESS_KIND")] else []
  | .Op | .OpInOut =>
      if s.gen_f90 = false then [("mpi_f08_types", "MPI_Op")] else []
  | .Win | .WinOut | .WinInOut =>
      if s.gen_f90 = false then [("mpi_f08_types", "MPI_Win")] else []
  | .File | .FileOut =>
      if s.gen_f90 = false then [("mpi_f08_types", "MPI_File")] else []
  | .Info | .InfoOut | .InfoInOut =>
      if s.gen_f90 = false then [("mpi_f08_types", "MPI_Info")] else []
  | .Offset | .OffsetOut =>
      if s.gen_f90 = false then [("mpi_f08_types", "MPI_OFFSET_KIND")] else []
  | .CharArray => [("iso_c_binding", "c_char"), ("iso_c_binding", "c_null_char")]
  | .CharArrayOut =>
      if s.count_param == some "MPI_MAX_OBJECT_NAME" then
        [("iso_c_binding", "c_char"), ("mpi_f08_types", "MPI_MAX_OBJECT_NAME")]
      else if s.count_param == some "MPI_MAX_PORT_NAME" then
        [("iso_c_binding", "c_char"), ("mpi_f08_types", "MPI_MAX_PORT_NAME")]
      else if s.count_param == some "MPI_MAX_ERROR_STRING" then
        [("iso_c_binding", "c_char"), ("mpi_f08_types", "MPI_MAX_ERROR_STRING")]
      else if s.count_param == some "MPI_MAX_PROCESSOR_NAME" then
        [("iso_c_binding", "c_char"), ("mpi_f08_types", "MPI_MAX_PROCESSOR_NAME")]
      else if s.count_param == some "MPI_MAX_LIBRARY_VERSION_STRING" then
        [("iso_c_binding", "c_char"), ("mpi_f08_types", "MPI_MAX_LIBRARY_VERSION_STRING")]
      else if s.count_param == some "MPI_STATUS_SIZE" then
        [("iso_c_binding", "c_char"), ("mpi_f08_types", "MPI_STATUS_SIZE")]
      else [("iso_c_binding", "c_char")]
  | .MessageOut | .MessageInOut =>
      if s.gen_f90 = false then [("mpi_f08_types", "MPI_Message")] else []
  | .ErrhandlerType | .ErrhandlerOutType | .ErrhandlerOutTypeB =>
      if s.gen_f90 = false then [("mpi_f08_types", "MPI_Errhandler")] else []
  | .CommErrhandlerFnType =>
      if s.gen_f90 = false then
        [("mpi_f08_interfaces_callbacks", "MPI_Comm_errhandler_function"),
         ("iso_c_binding", "c_funloc"), ("iso_c_binding", "c_funptr")]
      else []
  | .CommCopyAttrFnType =>
      if s.gen_f90 = false then
        [("mpi_f08_interfaces_callbacks", "MPI_Comm_copy_attr_function"),
         ("iso_c_binding", "c_funloc"), ("iso_c_binding", "c_funptr")]
      else []
  | .TypeCopyAttrFnType =>
      if s.gen_f90 = false then
        [("mpi_f08_interfaces_callbacks", "MPI_Type_copy_attr_function"),
         ("iso_c_binding", "c_funloc"), ("iso_c_binding", "c_funptr")]
      else []
  | .WinCopyAttrFnType =>
      if s.gen_f90 = false then
        [("mpi_f08_interfaces_callbacks", "MPI_Win_copy_attr_function"),
         ("iso_c_binding", "c_funloc"), ("iso_c_binding", "c_funptr")]
      else []
  | .CommDeleteAttrFnType =>
      if s.gen_f90 = false then
        [("mpi_f08_interfaces_callbacks", "MPI_Comm_delete_attr_function"),
         ("iso_c_binding", "c_funloc"), ("iso_c_binding", "c_funptr")]
      else []
  | .TypeDeleteAttrFnType =>
      if s.gen_f90 = false then
        [("mpi_f08_interfaces_callbacks", "MPI_Type_delete_attr_function"),
         ("iso_c_binding", "c_funloc"), ("iso_c_binding", "c_funptr")]
      else []
  | .WinDeleteAttrFnType =>
      if s.gen_f90 = false then
        [("mpi_f08_interfaces_callbacks", "MPI_Win_delete_attr_function"),
         ("iso_c_binding", "c_funloc"), ("iso_c_binding", "c_funptr")]
      else []
  | .CommErrhandlerFnTypeB =>
      if s.gen_f90 = false then
        [("mpi_f08_interfaces_callbacks", "MPI_Comm_errhandler_function"),
         ("iso_c_binding", "c_funloc"), ("iso_c_binding", "c_funptr")]
      else []
  | .FileErrhandlerFnType =>
      if s.gen_f90 = false then
        [("mpi_f08_interfaces_callbacks", "MPI_File_errhandler_function"),
         ("iso_c_binding", "c_funloc"), ("iso_c_binding", "c_funptr")]
      else []
  | .SessionErrhandlerFnType =>
      -- source line 1547: unconditional
      [("mpi_f08_interfaces_callbacks", "MPI_Session_errhandler_function"),
       ("iso_c_binding", "c_funloc"), ("iso_c_binding", "c_funptr")]
  | .WinErrhandlerFnType =>
      if s.gen_f90 = false then
        [("mpi_f08_interfaces_callbacks", "MPI_Win_errhandler_function"),
         ("iso_c_binding", "c_funloc"), ("iso_c_binding", "c_funptr")]
      else []
  | .DataRepConversionFnType =>
      if s.gen_f90 = false then
        [("mpi_f08_interfaces_callbacks", "MPI_Datarep_conversion_function"),
         ("iso_c_binding", "c_funloc"), ("iso_c_binding", "c_funptr")]
      else []
  | .DataRepExtentFnType =>
      if s.gen_f90 = false then
        [("mpi_f08_interfaces_callbacks", "MPI_Datarep_extent_function"),
         ("iso_c_binding", "c_funloc"), ("iso_c_binding", "c_funptr")]
      else []
  | _ => []

/-- `include()` (named `includeF` here since `include` is reserved):
base default is the empty string. -/
def includeF (k : KindCls) (s : FortranType) : String :=
  match k with
  | .CountType | .CountTypeInOut | .CountTypeInOutB
  | .StatusType | .StatusOutType | .StatusInOutType | .StatusArrayType
  | .CountArrayB | .Aint | .AintOut | .AintCountTypeIn
  | .Offset | .OffsetOut =>
      if s.gen_f90 = false then "" else "mpif-config.h"
  | _ => ""

/-- `pre_c_call()`: base default is the empty string. -/
def pre_c_call (k : KindCls) (s : FortranType) : String :=
  match k with
  | .LogicalType | .LogicalArrayType | .LogicalArrayTypeB =>
      s.tmp_name ++ " = merge(1,0," ++ s.name ++ ")"
  | .CommErrhandlerFnType
  | .CommCopyAttrFnType | .TypeCopyAttrFnType | .WinCopyAttrFnType
  | .CommDeleteAttrFnType | .TypeDeleteAttrFnType | .WinDeleteAttrFnType
  | .CommErrhandlerFnTypeB | .FileErrhandlerFnType | .SessionErrhandlerFnType
  | .WinErrhandlerFnType | .DataRepConversionFnType | .DataRepExtentFnType =>
      s.tmp_name ++ " = c_funloc(" ++ s.name ++ ")"
  | _ => ""

/-- `post()`: base default is the empty string.  `LogicalOutType` is the
only class overriding it in the whole module. -/
def post (k : KindCls) (s : FortranType) : String :=
  match k with
  | .LogicalOutType => s.name ++ " = " ++ s.tmp_name ++ " /= 0"
  | _ => ""

/-- `c_parameter()`: abstract in the base class.  The default arm covers
the many classes whose parameter is `MPI_Fint *name`. -/
def c_parameter (k : KindCls) (s : FortranType) : String :=
  match k with
  | .BufferType | .BufferAsyncType | .BufferOutType | .BufferAsyncOutType
  | .VBufferType | .VBufferTypeB | .WBufferType | .WBufferTypeB =>
      "OMPI_CFI_BUFFER *" ++ s.name
  | .CptrType => "char *" ++ s.name
  | .CountType | .CountTypeInOut | .CountTypeInOutB =>
      (if s.bigcount then "MPI_Count" else "MPI_Fint") ++ " *" ++ s.name
  | .PartitionedCountType => "MPI_Count *" ++ s.name
  | .CountArray =>
      (if s.bigcount then "MPI_Count" else "MPI_Fint") ++ " *" ++ s.name
  | .CountArrayB =>
      (if s.bigcount then "MPI_Count" else "MPI_Aint") ++ " *" ++ s.name
  | .Aint | .AintOut | .AintArrayType => "MPI_Aint *" ++ s.name
  | .AintCountTypeIn | .AintCountTypeInOut | .AintCountTypeOut =>
      (if s.bigcount then "MPI_Count" else "MPI_Aint") ++ " *" ++ s.name
  | .Disp | .DispOut | .DispArray =>
      (if s.bigcount then "MPI_Aint" else "MPI_Fint") ++ " *" ++ s.name
  | .Offset | .OffsetOut => "MPI_Offset *" ++ s.name
  | .CharArray | .CharArrayOut => "char *" ++ s.name
  | .CommErrhandlerFnType => "type(c_funptr) :: " ++ s.tmp_name
  | .CommCopyAttrFnType | .TypeCopyAttrFnType | .WinCopyAttrFnType =>
      "ompi_aint_copy_attr_function " ++ s.name
  | .CommDeleteAttrFnType | .TypeDeleteAttrFnType | .WinDeleteAttrFnType =>
      "ompi_aint_delete_attr_function " ++ s.name
  | .CommErrhandlerFnTypeB | .FileErrhandlerFnType | .SessionErrhandlerFnType
  | .WinErrhandlerFnType =>
      "ompi_errhandler_fortran_handler_fn_t " ++ s.name
  | .DataRepConversionFnType =>
      "ompi_mpi2_fortran_datarep_conversion_fn_t  " ++ s.name
  | .DataRepExtentFnType =>
      "ompi_mpi2_fortran_datarep_extent_fn_t  " ++ s.name
  | _ => "MPI_Fint *" ++ s.name

/-- Run `tmp_counter()` `n` times on a descriptor, collecting the returned
names in call order together with the final state. -/
def tmp_counter_run : Nat → FortranType → List String × FortranType
  | 0, s => ([], s)
  | n + 1, s =>
      let p := s.tmp_counter
      let q := tmp_counter_run n p.2
      (p.1 :: q.1, q.2)

/-!
State-passing views of the contract operations.  No Python method body in
the module other than `tmp_counter` contains an attribute assignment, so
the faithful state-passing translation of each one returns its result
together with the state it was given.
-/

/-- Stateful view of `declare()`. -/
def declareS (k : KindCls) (s : FortranType) : String × FortranType :=
  (declare k s, s)

/-- Stateful view of `declare_cbinding_fortran()`. -/
def declare_cbinding_fortranS (k : KindCls) (s : FortranType) : String × FortranType :=
  (declare_cbinding_fortran k s, s)

/-- Stateful view of `declare_tmp()`. -/
def declare_tmpS (k : KindCls) (s : FortranType) : String × FortranType :=
  (declare_tmp k s, s)

/-- Stateful view of `argument()`. -/
def argumentS (k : KindCls) (s : FortranType) : String × FortranType :=
  (argument k s, s)

/-- Stateful view of `use()`. -/
def useS (k : KindCls) (s : FortranType) : List (String × String) × FortranType :=
  (use k s, s)

/-- Stateful view of `include()`. -/
def includeFS (k : KindCls) (s : FortranType) : String × FortranType :=
  (includeF k s, s)

/-- Stateful view of `pre_c_call()`. -/
def pre_c_callS (k : KindCls) (s : FortranType) : String × FortranType :=
  (pre_c_call k s, s)

/-- Stateful view of `post()`. -/
def postS (k : KindCls) (s : FortranType) : String × FortranType :=
  (post k s, s)

/-- Stateful view of `c_parameter()`. -/
def c_parameterS (k : KindCls) (s : FortranType) : String × FortranType :=
  (c_parameter k s, s)

/-- Stateful view of `interface_predeclare()`. -/
def interface_predeclareS (k : KindCls) (s : FortranType) : String × FortranType :=
  (interface_predeclare k s, s)

/-- Stateful view of the `tmp_name` property. -/
def tmp_nameS (s : FortranType) : String × FortranType := (s.tmp_name, s)

/-- Stateful view of the `tmp_name2` property. -/
def tmp_name2S (s : FortranType) : String × FortranType := (s.tmp_name2, s)

/-- Stateful view of the `fn_api_name` property. -/
def fn_api_nameS (s : FortranType) : String × FortranType := (s.fn_api_name, s)

/-!
Spec-side tables used to state the claims below.
-/

/-- The count/address kinds with a wide/narrow duality named by the spec:
`COUNT` and its intent variants, `COUNT_ARRAY`, `AINT_COUNT` and its
intent variants, `DISP`, `DISP_OUT`, `DISP_ARRAY`. -/
def countDualKinds : List KindCls :=
  [.CountType, .CountTypeInOut, .CountTypeInOutB, .CountArray,
   .AintCountTypeIn, .AintCountTypeInOut, .AintCountTypeOut,
   .Disp, .DispOut, .DispArray]

/-- The wide primitive type each count/address kind selects when
`bigcount` is true. -/
def wideT : KindCls → String
  | .Disp | .DispOut | .DispArray => "MPI_Aint"
  | _ => "MPI_Count"

/-- The narrow primitive type each count/address kind selects when
`bigcount` is false. -/
def narrowT : KindCls → String
  | .AintCountTypeIn | .AintCountTypeInOut | .AintCountTypeOut => "MPI_Aint"
  | _ => "MPI_Fint"

/-- The handle kinds whose `declare_cbinding_fortran()` override (own or
inherited) yields a plain-integer declaration. -/
def integerCBindingHandleKinds : List KindCls :=
  [.CommType, .CommOutType, .CommInOutType,
   .GroupType, .GroupOutType, .GroupInOutType,
   .SessionType, .SessionOutType, .SessionInOutType,
   .Win, .WinOut, .WinInOut,
   .FileOut,
   .DatatypeType, .DatatypeTypeOut, .DatatypeTypeInOut,
   .Op, .OpInOut,
   .RequestType, .RequestTypeOut, .RequestTypeInOut,
   .ErrhandlerType, .ErrhandlerOutType, .ErrhandlerOutTypeB]

/-- The intent wording of each plain-integer C-binding declaration.  Note
`OP_INOUT` inherits the `IN` override of `Op`. -/
def cbIntent : KindCls → String
  | .CommOutType | .GroupOutType | .SessionOutType | .WinOut | .FileOut
  | .DatatypeTypeOut | .RequestTypeOut | .ErrhandlerOutType => "OUT"
  | .CommInOutType | .GroupInOutType | .SessionInOutType | .WinInOut
  | .DatatypeTypeInOut | .RequestTypeInOut | .ErrhandlerOutTypeB => "INOUT"
  | _ => "IN"

/-- The handle kinds that never override `declare_cbinding_fortran()` and
so inherit the base default, which returns `declare()`. -/
def defaultCBindingHandleKinds : List KindCls :=
  [.File, .Info, .InfoOut, .InfoInOut, .MessageOut, .MessageInOut]

/-- The array-like kinds whose `declare()` computes its size as
`'*' if self.count_param == None else self.count_param`. -/
def starDefaultArrayKinds : List KindCls :=
  [.IntArray, .IntArrayOut, .IntArrayInOut, .CountArray, .CountArrayB,
   .AintArrayType, .DispArray, .CharArrayOut]

/-!
Helper lemmas.
-/

theorem digitChar_toNat_sub (d : Nat) (hd : d < 10) :
    (Nat.digitChar d).toNat - 48 = d := by
  interval_cases d <;> decide

theorem decimalVal_concat (a : String) (c : Char) :
    decimalVal (a ++ String.mk [c]) = 10 * decimalVal a + (c.toNat - 48) := by
  have hdata : (a ++ String.mk [c]).data = a.data ++ [c] := String.data_append a _
  simp only [decimalVal, hdata, List.foldl_concat]

theorem decimalVal_decimalStr (n : Nat) : decimalVal (decimalStr n) = n := by
  induction n using Nat.strong_induction_on with
  | _ n ih =>
    rw [decimalStr]
    by_cases h : n < 10
    · simp only [dif_pos h]
      simp only [decimalVal, List.foldl]
      rw [Nat.mul_zero, Nat.zero_add]
      exact digitChar_toNat_sub n h
    · simp only [dif_neg h]
      rw [decimalVal_concat, ih (n / 10) (Nat.div_lt_self (by omega) (by omega)),
        digitChar_toNat_sub (n % 10) (Nat.mod_lt _ (by omega))]
      omega

theorem decimalStr_injective : Function.Injective decimalStr :=
  Function.LeftInverse.injective decimalVal_decimalStr

theorem string_append_left_cancel {a b c : String} (h : a ++ b = a ++ c) : b = c := by
  have hd := congrArg String.data h
  rw [String.data_append, String.data_append] at hd
  exact String.ext (List.append_cancel_left hd)

theorem counterName_injective (nm : String) :
    Function.Injective (fun i => nm ++ "_i_" ++ decimalStr i) := by
  intro a b h
  apply decimalStr_injective
  have h' : nm ++ "_i_" ++ decimalStr a = nm ++ "_i_" ++ decimalStr b := h
  rw [String.append_assoc, String.append_assoc] at h'
  exact string_append_left_cancel (string_append_left_cancel h')

theorem tmp_counter_run_snd (n : Nat) (s : FortranType) :
    (tmp_counter_run n s).2 = { s with used_counters := s.used_counters + n } := by
  induction n generalizing s with
  | zero => simp [tmp_counter_run]
  | succ n ih =>
    simp only [tmp_counter_run, FortranType.tmp_counter, ih]
    have : s.used_counters + 1 + n = s.used_counters + (n + 1) := by omega
    rw [this]

theorem tmp_counter_run_fst (n : Nat) (s : FortranType) :
    (tmp_counter_run n s).1 =
      (List.range n).map (fun i => s.name ++ "_i_" ++ decimalStr (s.used_counters + i)) := by
  induction n generalizing s with
  | zero => simp [tmp_counter_run]
  | succ n ih =>
    simp only [tmp_counter_run, FortranType.tmp_counter]
    rw [ih]
    rw [List.range_succ_eq_map, List.map_cons, List.map_map]
    simp only [Nat.add_zero]
    refine congrArg (_ :: ·) (List.map_congr_left fun i _ => ?_)
    have : s.used_counters + 1 + i = s.used_counters + Nat.succ i := by omega
    simp only [Function.comp, this]

theorem find?_dictInsert_ne (m : List (String × KindCls)) (k : String) (v : KindCls)
    (t : String) (h : (k == t) = false) :
    (dictInsert m k v).find? (fun p => p.1 == t) = m.find? (fun p => p.1 == t) := by
  induction m with
  | nil => simp [dictInsert, List.find?, h]
  | cons hd tl ih =>
    rw [dictInsert]
    by_cases hk : (hd.1 == k) = true
    · rw [if_pos hk]
      have : hd.1 = k := eq_of_beq hk
      rw [List.find?, List.find?, h, this, h]
    · rw [if_neg hk, List.find?, List.find?]
      cases hht : (hd.1 == t) with
      | true => rfl
      | false => exact ih

theorem find?_foldl_dictInsert (l : List (String × KindCls)) (m : List (String × KindCls))
    (t : String) (h : t ∉ l.map Prod.fst) :
    (l.foldl (fun m p => dictInsert m p.1 p.2) m).find? (fun p => p.1 == t)
      = m.find? (fun p => p.1 == t) := by
  induction l generalizing m with
  | nil => rfl
  | cons hd tl ih =>
    rw [List.map_cons, List.mem_cons, not_or] at h
    rw [List.foldl_cons, ih _ h.2, find?_dictInsert_ne]
    exact beq_false_of_ne fun he => h.1 (he.symm)

theorem TYPES_find?_of_unregistered (t : String) (h : t ∉ registrations.map Prod.fst) :
    TYPES.find? (fun p => p.1 == t) = none := by
  rw [TYPES, find?_foldl_dictInsert registrations [] t h]
  rfl

/-!
Claim theorems.
-/

/-- Claim C1 (code bug): the claim says that with `legacyMode` (`gen_f90`)
true every handle kind's `declare()` yields a plain-integer declaration.
The code violates this for the request INOUT kinds: `RequestTypeInOut.declare`
has no `gen_f90` branch at all, and `RequestArrayTypeInOut.declare` returns
the `TYPE(MPI_Request)` wrapper in both branches of its `gen_f90` test, so
legacy mode still produces a strongly-typed wrapper declaration (which the
legacy interface cannot even name, since `use()` imports nothing in that
mode).  This theorem evaluates the code at the failing inputs. -/
theorem c1_request_inout_legacy_yields_wrapper :
    declare .RequestTypeInOut (FortranType.init "request" "wait" false none true)
      = "TYPE(MPI_Request), INTENT(INOUT) :: request" ∧
    declare .RequestArrayTypeInOut
        (FortranType.init "array_of_requests" "waitall" false (some "count") true)
      = "TYPE(MPI_Request), INTENT(INOUT) :: array_of_requests(*)" ∧
    declare .RequestTypeInOut (FortranType.init "request" "wait" false none true)
      ≠ "INTEGER, INTENT(INOUT) :: request" := by
  refine ⟨rfl, rfl, ?_⟩
  decide

/-- Claim C2 counterexample: `Info` never overrides
`declare_cbinding_fortran`, so the base default returns `declare()`, which
in modern mode (`gen_f90 = false`) is the strongly-typed wrapper
declaration, not a plain integer. -/
theorem c2_info_cbinding_is_wrapper :
    declare_cbinding_fortran .Info (FortranType.init "info" "info_dup" false none false)
      = "TYPE(MPI_Info), INTENT(IN) :: info" ∧
    declare_cbinding_fortran .Info (FortranType.init "info" "info_dup" false none false)
      ≠ "INTEGER, INTENT(IN) :: info" := by
  refine ⟨rfl, ?_⟩
  decide

/-- Claim C2 (amended): for the handle kinds that override
`declare_cbinding_fortran` (directly or by inheritance), the C-binding
declaration is a plain-integer declaration for every state, independent of
`legacyMode` and `bigcount`; but the `FILE` (IN), `INFO` (all intents) and
`MESSAGE` (OUT/INOUT) kinds inherit the base default, which returns the
same string as `declare()` — a strongly-typed wrapper whenever
`legacyMode` is false. -/
theorem c2_cbinding_integer_for_overriding_handles :
    (∀ k ∈ integerCBindingHandleKinds, ∀ s : FortranType,
      declare_cbinding_fortran k s = "INTEGER, INTENT(" ++ cbIntent k ++ ") :: " ++ s.name) ∧
    (∀ k ∈ defaultCBindingHandleKinds, ∀ s : FortranType,
      declare_cbinding_fortran k s = declare k s) := by
  constructor
  · intro k hk s
    fin_cases hk <;> rfl
  · intro k hk s
    fin_cases hk <;> rfl

/-- Witness for C2's amended theorem at a concrete input. -/
theorem c2_cbinding_integer_witness :
    declare_cbinding_fortran .CommType (FortranType.init "comm" "send" false none false)
      = "INTEGER, INTENT(IN) :: comm" :=
  c2_cbinding_integer_for_overriding_handles.1 .CommType (by decide)
    (FortranType.init "comm" "send" false none false)

/-- Claim C3 (code bug): the claim says every logical OUT kind pairs a
non-empty `declareTmp()` with a non-empty `post()` converting the
temporary back to the boolean.  `LOGICAL_OUT` does so, but
`LOGICAL_ARRAY_OUT` (the second Python class named `LogicalArrayType`)
defines `pre_c_call` instead of `post`: its `post()` is the inherited
empty default, so the INTENT(OUT) array is never written back.  This
theorem evaluates the code at the failing input and, for contrast, at the
kinds that do satisfy the claim. -/
theorem c3_logical_array_out_post_empty :
    declare .LogicalArrayTypeB (FortranType.init "flag" "testall" false (some "count") false)
      = "LOGICAL, INTENT(OUT) :: flag(count)" ∧
    declare_tmp .LogicalArrayTypeB (FortranType.init "flag" "testall" false (some "count") false)
      = "INTEGER :: c_flag(count)" ∧
    post .LogicalArrayTypeB (FortranType.init "flag" "testall" false (some "count") false)
      = "" ∧
    pre_c_call .LogicalArrayTypeB (FortranType.init "flag" "testall" false (some "count") false)
      = "c_flag = merge(1,0,flag)" ∧
    post .LogicalOutType (FortranType.init "flag" "test" false none false)
      = "flag = c_flag /= 0" ∧
    declare_tmp .LogicalType (FortranType.init "flag" "test" false none false)
      ≠ "" ∧
    pre_c_call .LogicalType (FortranType.init "flag" "test" false none false)
      = "c_flag = merge(1,0,flag)" ∧
    pre_c_call .LogicalArrayType (FortranType.init "flag" "testall" false (some "count") false)
      ≠ "" := by
  refine ⟨rfl, rfl, rfl, rfl, rfl, ?_, rfl, ?_⟩ <;> decide

/-- Claim C4: for every count/address kind supporting the wide/narrow
duality (`COUNT` and its intent variants, `COUNT_ARRAY`, `AINT_COUNT` and
its intent variants, `DISP`, `DISP_OUT`, `DISP_ARRAY`), `cParameter()`
selects the wide primitive type (`MPI_Count`, or `MPI_Aint` for the
displacement kinds) when `bigcount` is true, and the narrow one
(`MPI_Fint`, or `MPI_Aint` for the `AINT_COUNT` kinds) when `bigcount` is
false. -/
theorem c4_c_parameter_wide_narrow (k : KindCls) (hk : k ∈ countDualKinds)
    (s : FortranType) :
    c_parameter k s = (if s.bigcount then wideT k else narrowT k) ++ " *" ++ s.name := by
  fin_cases hk <;> cases hb : s.bigcount <;> simp [c_parameter, wideT, narrowT, hb]

/-- Witness for C4 at concrete inputs, both flag values. -/
theorem c4_c_parameter_wide_narrow_witness :
    c_parameter .CountType (FortranType.init "count" "send" true none false)
      = "MPI_Count *count" ∧
    c_parameter .AintCountTypeIn (FortranType.init "extent" "type_size" false none false)
      = "MPI_Aint *extent" ∧
    c_parameter .Disp (FortranType.init "disp" "put" false none false)
      = "MPI_Fint *disp" :=
  ⟨c4_c_parameter_wide_narrow .CountType (by decide)
      (FortranType.init "count" "send" true none false),
   c4_c_parameter_wide_narrow .AintCountTypeIn (by decide)
      (FortranType.init "extent" "type_size" false none false),
   c4_c_parameter_wide_narrow .Disp (by decide)
      (FortranType.init "disp" "put" false none false)⟩

/-- Claim C5: on a freshly constructed descriptor, `tmp_name` is
`"c_" + name`, `tmp_name2` is `"c_" + name + "2"`, and `n` calls of
`tmpCounter()` return exactly the names `name + "_i_" + 0` through
`name + "_i_" + (n-1)` in order — pairwise distinct names with strictly
increasing integer suffixes starting at 0. -/
theorem c5_derived_names (nm fn : String) (bc : Bool) (cp : Option String)
    (g90 : Bool) (n : Nat) :
    (FortranType.init nm fn bc cp g90).tmp_name = "c_" ++ nm ∧
    (FortranType.init nm fn bc cp g90).tmp_name2 = "c_" ++ nm ++ "2" ∧
    (tmp_counter_run n (FortranType.init nm fn bc cp g90)).1
      = (List.range n).map (fun i => nm ++ "_i_" ++ decimalStr i) ∧
    (tmp_counter_run n (FortranType.init nm fn bc cp g90)).1.Nodup := by
  have hrun : (tmp_counter_run n (FortranType.init nm fn bc cp g90)).1
      = (List.range n).map (fun i => nm ++ "_i_" ++ decimalStr i) := by
    rw [tmp_counter_run_fst]
    exact List.map_congr_left fun i _ => by rw [FortranType.init]; rw [Nat.zero_add]
  refine ⟨rfl, rfl, hrun, ?_⟩
  rw [hrun]
  exact (List.nodup_range n).map (counterName_injective nm)

/-- Claim C7: looking up a tag that was never registered fails with the
Unknown Kind error, `construct` fails identically without building a
descriptor, and the registry table is unchanged by the failed lookup. -/
theorem c7_unregistered_tag_fails (tag : String)
    (h : tag ∉ registrations.map Prod.fst) :
    getCls tag = .error (.unknownKind tag) ∧
    (∀ (nm fn : String) (bc : Bool) (cp : Option String) (g90 : Bool),
      construct tag nm fn bc cp g90 = .error (.unknownKind tag)) ∧
    (getClsS TYPES tag).2 = TYPES := by
  have hfind := TYPES_find?_of_unregistered tag h
  refine ⟨?_, ?_, rfl⟩
  · rw [getCls, hfind]
  · intro nm fn bc cp g90
    rw [construct, getCls, hfind]

/-- Witness for C7 at the spec's own example tag `"BOGUS"`. -/
theorem c7_unregistered_tag_fails_witness :
    getCls "BOGUS" = .error (.unknownKind "BOGUS") ∧
    construct "BOGUS" "x" "f" false none false = .error (.unknownKind "BOGUS") :=
  ⟨(c7_unregistered_tag_fails "BOGUS" (by decide)).1,
   (c7_unregistered_tag_fails "BOGUS" (by decide)).2.1 "x" "f" false none false⟩

/-- Claim C6 counterexample: `LOGICAL_ARRAY` is an array kind, yet with
`countParam = None` its `declare()` does not default to an assumed-size
`(*)` declaration — the f-string interpolates the missing value, embedding
the text `None`. -/
theorem c6_logical_array_embeds_none :
    declare .LogicalArrayType (FortranType.init "flags" "testall" false none false)
      = "LOGICAL, INTENT(IN) :: flags(None)" ∧
    declare .LogicalArrayType (FortranType.init "flags" "testall" false none false)
      ≠ "LOGICAL, INTENT(IN) :: flags(*)" := by
  refine ⟨rfl, ?_⟩
  decide

/-- Claim C6 (amended): the array kinds that implement the assumed-size
default (`INT_ARRAY` and its OUT/INOUT variants, `COUNT_ARRAY`,
`AINT_COUNT_ARRAY`, `AINT_ARRAY`, `DISP_ARRAY`, `CHAR_ARRAY_OUT`) declare,
when constructed with `countParam = None`, exactly what they would declare
for an explicit `'*'` size — an assumed-size declaration, without failing.
The logical array kinds (and the request array kinds in modern mode)
instead embed the interpolated `None` (see the counterexample). -/
theorem c6_star_default_arrays (k : KindCls) (hk : k ∈ starDefaultArrayKinds)
    (nm fn : String) (bc : Bool) (g90 : Bool) :
    declare k (FortranType.init nm fn bc none g90)
      = declare k (FortranType.init nm fn bc (some "*") g90) := by
  fin_cases hk <;> rfl

/-- Witness for C6's amended theorem at a concrete input. -/
theorem c6_star_default_arrays_witness :
    declare .IntArray (FortranType.init "ranks" "group_incl" false none false)
      = declare .IntArray (FortranType.init "ranks" "group_incl" false (some "*") false) :=
  c6_star_default_arrays .IntArray (by decide) "ranks" "group_incl" false false

/-- Claim C8: the string IN kind (`CHAR_ARRAY`) declares an assumed-length
character dummy argument and its `argument()` appends a null terminator;
the string OUT kind (`CHAR_ARRAY_OUT`) declares a character buffer whose
length is `countParam` (or assumed length `*` when absent) and its
`argument()` is the plain parameter name with no terminator handling. -/
theorem c8_char_array_kinds (nm fn : String) (bc : Bool) (cp : Option String)
    (g90 : Bool) (u : Nat) :
    declare .CharArray ⟨nm, fn, bc, cp, g90, u⟩
      = "CHARACTER(LEN=*), INTENT(IN) :: " ++ nm ∧
    argument .CharArray ⟨nm, fn, bc, cp, g90, u⟩ = nm ++ "//c_null_char" ∧
    declare .CharArrayOut ⟨nm, fn, bc, cp, g90, u⟩
      = "CHARACTER(LEN=" ++ (match cp with | none => "*" | some c => c)
          ++ "), INTENT(OUT) :: " ++ nm ∧
    argument .CharArrayOut ⟨nm, fn, bc, cp, g90, u⟩ = nm := by
  refine ⟨rfl, rfl, ?_, rfl⟩
  cases cp <;> rfl

/-- Claim C9: every contract operation other than `tmpCounter()` leaves the
descriptor state unchanged (their state-passing views return the given
state), and `tmpCounter()` increments `used_counters` by exactly one while
changing no other field. -/
theorem c9_operations_frame (k : KindCls) (s : FortranType) :
    (declareS k s).2 = s ∧
    (declare_cbinding_fortranS k s).2 = s ∧
    (declare_tmpS k s).2 = s ∧
    (argumentS k s).2 = s ∧
    (useS k s).2 = s ∧
    (includeFS k s).2 = s ∧
    (pre_c_callS k s).2 = s ∧
    (postS k s).2 = s ∧
    (c_parameterS k s).2 = s ∧
    (interface_predeclareS k s).2 = s ∧
    (tmp_nameS s).2 = s ∧
    (tmp_name2S s).2 = s ∧
    (fn_api_nameS s).2 = s ∧
    s.tmp_counter.2.used_counters = s.used_counters + 1 ∧
    s.tmp_counter.2.name = s.name ∧
    s.tmp_counter.2.fn_name = s.fn_name ∧
    s.tmp_counter.2.bigcount = s.bigcount ∧
    s.tmp_counter.2.count_param = s.count_param ∧
    s.tmp_counter.2.gen_f90 = s.gen_f90 :=
  ⟨rfl, rfl, rfl, rfl, rfl, rfl, rfl, rfl, rfl, rfl, rfl, rfl, rfl, rfl, rfl,
   rfl, rfl, rfl, rfl⟩

/-- Claim C10: the catalogue registers the tag `COMM_ERRHANDLER_FN` twice
with two different classes; dict assignment silently overwrites, so the
registry resolves the tag to the later class, whose `argument()` returns
the temporary function-pointer name (`c_` + name) and whose
`cParameter()` is an `ompi_errhandler_fortran_handler_fn_t` formal — not
the earlier class, whose `argument()` in modern mode projects `%MPI_VAL`. -/
theorem c10_comm_errhandler_fn_shadowing :
    (registrations.map Prod.fst).count "COMM_ERRHANDLER_FN" = 2 ∧
    registrations.filter (fun p => p.1 == "COMM_ERRHANDLER_FN")
      = [("COMM_ERRHANDLER_FN", .CommErrhandlerFnType),
         ("COMM_ERRHANDLER_FN", .CommErrhandlerFnTypeB)] ∧
    getCls "COMM_ERRHANDLER_FN" = .ok .CommErrhandlerFnTypeB ∧
    (∀ s : FortranType,
      argument .CommErrhandlerFnTypeB s = s.tmp_name ∧
      c_parameter .CommErrhandlerFnTypeB s
        = "ompi_errhandler_fortran_handler_fn_t " ++ s.name ∧
      argument .CommErrhandlerFnType { s with gen_f90 := false }
        = s.name ++ "%MPI_VAL" ∧
      argument .CommErrhandlerFnTypeB s
        ≠ argument .CommErrhandlerFnType { s with gen_f90 := false }) := by
  refine ⟨by decide, by decide, rfl, fun s => ⟨rfl, rfl, rfl, ?_⟩⟩
  show "c_" ++ s.name ≠ s.name ++ "%MPI_VAL"
  intro h
  have hl := congrArg String.length h
  rw [String.length_append, String.length_append] at hl
  have h2 : ("c_" : String).length = 2 := rfl
  have h8 : ("%MPI_VAL" : String).length = 8 := rfl
  omega

end OmpiBindings
